import Mathlib

/-!
Verification development for the DevHub tool-orchestration core
(`devhub/agent.py`, `devhub/services/vector_db.py`, `devhub/services/team_db.py`,
`devhub/services/status_api.py`, `devhub/config.py`).

The Python code is shallowly embedded:

* Python/JSON values reachable from `json.loads` are the inductive `PyVal`;
  Python exceptions that matter to the agent are `PyErr`; fallible Python
  expressions become `Except PyErr`.
* The three simulated backends are nondeterministic only through
  `random.random()` / `random.randint` draws and through the external
  ranking engine (ChromaDB); both are passed in explicitly as oracle
  records, so every function is a pure, executable Lean definition.
* Wall-clock effects (`time.sleep`) are modelled as an explicit trace of
  slept millisecond amounts (plus, for the vector store, a marker that the
  external ranking engine was invoked), returned next to the result.
* The LLM completion capability is an external collaborator: the planning
  call is represented by the raw text it returned, the synthesis call by an
  opaque total function.
* `json.loads` is an external library routine; it is modelled as a
  parameter `loads : String → Option PyVal` (`none` = `JSONDecodeError`).
-/

/-- Python values producible by `json.loads`, plus `None`; used for the
planner output, tool arguments and tool payloads in `agent.py`. -/
inductive PyVal where
  | str (s : String)
  | int (n : Int)
  | bool (b : Bool)
  | null
  | list (xs : List PyVal)
  | dict (kvs : List (String × PyVal))

/-- Python exceptions distinguished by the handler in
`DevHubAgent._execute_tool`: `ConnectionError`, `TimeoutError`, and every
other `Exception` (carrying the exception class name and `str(e)`). -/
inductive PyErr where
  | connectionError (msg : String)
  | timeoutError (msg : String)
  | otherError (cls msg : String)

/-- Numeric tag of the `except` clause of `_execute_tool` that catches an
exception: 0 = `ConnectionError`, 1 = `TimeoutError`, 2 = everything else. -/
def errClass : PyErr → Nat
  | .connectionError _ => 0
  | .timeoutError _ => 1
  | .otherError _ _ => 2

/-- Message stored in `result[\x22error\x22]` by the three `except` clauses of
`DevHubAgent._execute_tool` (lines 199-204 of `agent.py`). -/
def errMsg : PyErr → String
  | .connectionError m => "Connection failed: " ++ m
  | .timeoutError m => "Timeout: " ++ m
  | .otherError _ m => "Error: " ++ m

/-- Whether a Python value is a `dict` (the only values supporting `.get`). -/
def PyVal.isDict : PyVal → Bool
  | .dict _ => true
  | _ => false

/-- Python `repr(v)` for the values of `PyVal` (str reprs are quoted with
\x27, containers bracketed; good for the values the agent ever formats). -/
def pyRepr : PyVal → String
  | .str s => "\x27" ++ s ++ "\x27"
  | .int n => toString n
  | .bool true => "True"
  | .bool false => "False"
  | .null => "None"
  | .list xs => "[" ++ String.intercalate ", " (xs.attach.map fun x => pyRepr x.1) ++ "]"
  | .dict kvs =>
      "\x7b" ++
        String.intercalate ", "
          (kvs.attach.map fun p => "\x27" ++ p.1.1 ++ "\x27: " ++ pyRepr p.1.2) ++
      "\x7d"
decreasing_by
  · have h := List.sizeOf_lt_of_mem x.2
    simp_wf
    omega
  · have h := List.sizeOf_lt_of_mem p.2
    obtain ⟨⟨k, v⟩, hp⟩ := p
    simp_wf
    simp only [Prod.mk.sizeOf_spec] at h
    omega

/-- Python `str(v)`: the string itself for a `str`, `repr` otherwise
(this is what the f-string in the unknown-tool branch renders). -/
def pyStr : PyVal → String
  | .str s => s
  | v => pyRepr v

/-- Python `v == s` for a string literal `s`: true exactly when `v` is the
equal `str` (Python cross-type equality with a string is `False`). -/
def isPyStr (v : PyVal) (s : String) : Bool :=
  match v with
  | .str t => t == s
  | _ => false

/-- Python `d.get(k, default)`: the value under `k` in a dict, the default
when the key is absent, an `AttributeError` when `d` is not a dict. -/
def PyVal.get (v : PyVal) (k : String) (d : PyVal) : Except PyErr PyVal :=
  match v with
  | .dict kvs => .ok ((kvs.lookup k).getD d)
  | _ => .error (.otherError "AttributeError" ("object has no attribute get: " ++ k))

/-- Python `d[k]`: `KeyError` when the key is absent, `TypeError` when `d`
is not a dict. -/
def PyVal.getItem (v : PyVal) (k : String) : Except PyErr PyVal :=
  match v with
  | .dict kvs =>
      match kvs.lookup k with
      | some x => .ok x
      | none => .error (.otherError "KeyError" k)
  | _ => .error (.otherError "TypeError" ("object is not subscriptable: " ++ k))

namespace Config

/-- `Config.VECTOR_DB_LATENCY_MIN` (ms). -/
def VECTOR_DB_LATENCY_MIN : Nat := 50

/-- `Config.VECTOR_DB_LATENCY_MAX` (ms). -/
def VECTOR_DB_LATENCY_MAX : Nat := 200

/-- `Config.VECTOR_DB_SLOW_QUERY_LATENCY` (ms). -/
def VECTOR_DB_SLOW_QUERY_LATENCY : Nat := 3000

/-- `Config.TEAM_DB_LATENCY_MIN` (ms). -/
def TEAM_DB_LATENCY_MIN : Nat := 20

/-- `Config.TEAM_DB_LATENCY_MAX` (ms). -/
def TEAM_DB_LATENCY_MAX : Nat := 100

/-- `Config.STATUS_API_LATENCY_MIN` (ms). -/
def STATUS_API_LATENCY_MIN : Nat := 30

/-- `Config.STATUS_API_LATENCY_MAX` (ms). -/
def STATUS_API_LATENCY_MAX : Nat := 150

/-- `Config.STATUS_API_TIMEOUT_LATENCY` (ms). -/
def STATUS_API_TIMEOUT_LATENCY : Nat := 5000

/-- `Config.VECTOR_DB_FAILURE_RATE`. -/
def VECTOR_DB_FAILURE_RATE : ℚ := 5/100

/-- `Config.VECTOR_DB_SLOW_QUERY_RATE`. -/
def VECTOR_DB_SLOW_QUERY_RATE : ℚ := 10/100

/-- `Config.VECTOR_DB_LOW_SIMILARITY_RATE`. -/
def VECTOR_DB_LOW_SIMILARITY_RATE : ℚ := 15/100

/-- `Config.TEAM_DB_STALE_DATA_RATE`. -/
def TEAM_DB_STALE_DATA_RATE : ℚ := 10/100

/-- `Config.STATUS_API_TIMEOUT_RATE`. -/
def STATUS_API_TIMEOUT_RATE : ℚ := 2/100

/-- `Config.LOW_SIMILARITY_THRESHOLD`: distances above this count as bad
retrieval. -/
def LOW_SIMILARITY_THRESHOLD : ℚ := 5/10

end Config

/-!
Python / SQL string primitives, implemented on `List Char` by structural
recursion so that concrete instances evaluate inside the kernel.
-/

/-- Characters stripped by Python `str.strip()` (`str.isspace` set). -/
def isPySpace (c : Char) : Bool :=
  c = ' ' || c = '\t' || c = '\n' || c = '\r' || c = '\x0b' || c = '\x0c'

/-- Python `str.strip()`. -/
def pyStrip (s : String) : String :=
  (((s.toList.dropWhile isPySpace).reverse.dropWhile isPySpace).reverse).asString

/-- Longest prefix of `s` not containing `sep`; equals the segment python
`split(sep)` would produce next. -/
def takeUntil (sep : List Char) : List Char → List Char
  | [] => []
  | c :: s => if sep.isPrefixOf (c :: s) then [] else c :: takeUntil sep s

/-- Whether `t` occurs inside `s` (Python `t in s` for strings). -/
def listContains (t s : List Char) : Bool :=
  t.isPrefixOf s ||
    match s with
    | [] => false
    | _ :: s2 => listContains t s2

/-- Python `sub in s` on strings. -/
def strContains (s sub : String) : Bool :=
  listContains sub.toList s.toList

/-- ASCII lower-casing of a string, modelling both Python `str.lower()` and
SQLite `LOWER` on the ASCII data the fixtures hold. -/
def lowerStr (s : String) : String :=
  (s.toList.map Char.toLower).asString

/-- SQLite `LIKE` pattern matching (both operands already lower-cased, so
character comparison is plain equality): `%` matches any run — i.e. the
remaining pattern must match some suffix — and `_` exactly one character. -/
def likeMatch : List Char → List Char → Bool
  | [], s => s.isEmpty
  | p :: ps, s =>
    if p = '%' then
      s.tails.any fun s2 => likeMatch ps s2
    else
      match s with
      | [] => false
      | c :: s2 => (p = '_' || p = c) && likeMatch ps s2

/-- The three backtick characters of a Markdown code fence. -/
def fenceChars : List Char := ['\x60', '\x60', '\x60']


/-!
DevHubAgent (`agent.py`). The three backing services are abstracted as one
record of fallible operations; `BackendCall` records which backend was
actually invoked and with which argument value.
-/

/-- The backend operations the agent dispatches to, as opaque fallible
functions (the concrete simulated services are modelled further below). -/
structure Services where
  search : PyVal → Except PyErr PyVal
  find_owner : PyVal → Except PyErr PyVal
  check_status : PyVal → Except PyErr PyVal

/-- Trace marker: one actual invocation of a backend operation. -/
inductive BackendCall where
  | search (arg : PyVal)
  | find_owner (arg : PyVal)
  | check_status (arg : PyVal)

/-- The result dict built by `DevHubAgent._execute_tool`. -/
structure ToolResult where
  tool : PyVal
  success : Bool
  data : Option PyVal
  error : Option String

/-- Fence stripping done at the top of `DevHubAgent._plan_tools`:
`content = text.strip()`; if it starts with a code fence, keep the segment
between the first two fences (python `content.split(DELIM)[1]`), drop a
leading `json` tag, and strip again. -/
def stripContent (text : String) : String :=
  let content := pyStrip text
  if fenceChars.isPrefixOf content.toList then
    let seg := takeUntil fenceChars (content.toList.drop 3)
    let seg := if ("json".toList).isPrefixOf seg then seg.drop 4 else seg
    pyStrip seg.asString
  else content

/-- `DevHubAgent._plan_tools`, parametrised by the external `json.loads`
behaviour and by the raw text the completion capability returned: parse the
stripped text; on parse failure or a non-list value return `[]`. -/
def _plan_tools (loads : String → Option PyVal) (raw : String) : List PyVal :=
  match loads (stripContent raw) with
  | some (PyVal.list xs) => xs
  | some _ => []
  | none => []

/-- Payload dict rebuilt from the vector-store result in the
`search_docs` branch of `_execute_tool` (lines 177-182 of `agent.py`). -/
def buildSearchPayload (data : PyVal) : Except PyErr PyVal := do
  let docs ← data.getItem "documents"
  let metas ← data.getItem "metadatas"
  let dists ← data.getItem "distances"
  let lat ← data.getItem "latency_ms"
  pure (PyVal.dict
    [("documents", docs), ("metadatas", metas), ("distances", dists), ("latency_ms", lat)])

/-- A `ToolResult` as produced when an `except` clause ran while
`result[\x22success\x22]` still held `success` and `result[\x22data\x22]` held `data`. -/
def caughtResult (tool_name : PyVal) (success : Bool) (data : Option PyVal)
    (e : PyErr) : ToolResult :=
  { tool := tool_name, success := success, data := data, error := some (errMsg e) }

/-- `DevHubAgent._execute_tool`, also returning the list of backend
invocations it performed. Mirrors the source line by line: the result dict
starts as failure/no-data, each branch extracts its argument with
`args.get(key, DEFAULT)`, calls the backend inside the `try`, sets
`success` before rebuilding the payload (`search_docs` only), and the three
`except` clauses turn any exception into `errMsg`. -/
def _execute_tool (svc : Services) (tool_name args : PyVal) :
    ToolResult × List BackendCall :=
  if isPyStr tool_name "search_docs" then
    match args.get "query" (PyVal.str "") with
    | .error e => (caughtResult tool_name false none e, [])
    | .ok q =>
      match svc.search q with
      | .error e => (caughtResult tool_name false none e, [BackendCall.search q])
      | .ok data =>
        match buildSearchPayload data with
        | .error e => (caughtResult tool_name true none e, [BackendCall.search q])
        | .ok payload =>
          ({ tool := tool_name, success := true, data := some payload, error := none },
           [BackendCall.search q])
  else if isPyStr tool_name "find_owner" then
    match args.get "service" (PyVal.str "") with
    | .error e => (caughtResult tool_name false none e, [])
    | .ok s =>
      match svc.find_owner s with
      | .error e => (caughtResult tool_name false none e, [BackendCall.find_owner s])
      | .ok data =>
        ({ tool := tool_name, success := true, data := some data, error := none },
         [BackendCall.find_owner s])
  else if isPyStr tool_name "check_status" then
    match args.get "service" (PyVal.str "") with
    | .error e => (caughtResult tool_name false none e, [])
    | .ok s =>
      match svc.check_status s with
      | .error e => (caughtResult tool_name false none e, [BackendCall.check_status s])
      | .ok data =>
        ({ tool := tool_name, success := true, data := some data, error := none },
         [BackendCall.check_status s])
  else
    ({ tool := tool_name, success := false, data := none,
       error := some ("Unknown tool: " ++ pyStr tool_name) }, [])

/-- The tool-execution loop of `DevHubAgent.query` (lines 257-262): for
each planned call take `tool_call.get(\x22tool\x22, \x22\x22)` and
`tool_call.get(\x22args\x22, \x7b\x7d)` — either raises on a non-dict —
then run `_execute_tool` and append its result. -/
def runCalls (svc : Services) : List PyVal → Except PyErr (List ToolResult × List BackendCall)
  | [] => .ok ([], [])
  | c :: rest =>
    match c.get "tool" (PyVal.str "") with
    | .error e => .error e
    | .ok name =>
      match c.get "args" (PyVal.dict []) with
      | .error e => .error e
      | .ok args =>
        match runCalls svc rest with
        | .error e => .error e
        | .ok (rs, evs) =>
          .ok ((_execute_tool svc name args).1 :: rs, (_execute_tool svc name args).2 ++ evs)

/-- The `tools_called` list comprehension of `DevHubAgent.query` (line 269):
`t.get(\x22tool\x22)` with Python default `None`. -/
def toolsCalled : List PyVal → Except PyErr (List PyVal)
  | [] => .ok []
  | c :: rest =>
    match c.get "tool" PyVal.null with
    | .error e => .error e
    | .ok n =>
      match toolsCalled rest with
      | .error e => .error e
      | .ok ns => .ok (n :: ns)

/-- The dict returned by `DevHubAgent.query`. -/
structure QueryOut where
  response : String
  tools_called : List PyVal
  tool_results : List ToolResult

/-- `DevHubAgent.query`, parametrised by the services, the external
`json.loads`, the synthesis completion call (a total external function of
the query and the serialized tool results) and the raw text the planning
completion call returned. -/
def DevHubAgent.query (svc : Services) (loads : String → Option PyVal)
    (synth : String → List ToolResult → String)
    (user_query planText : String) : Except PyErr QueryOut :=
  let planned := _plan_tools loads planText
  match runCalls svc planned with
  | .error e => .error e
  | .ok (results, _) =>
    match toolsCalled planned with
    | .error e => .error e
    | .ok called =>
      .ok { response := synth user_query results
          , tools_called := called
          , tool_results := results }

/-- Tool names with a dispatch branch in `_execute_tool`. -/
def knownTools : List String := ["search_docs", "find_owner", "check_status"]

/-- The argument key each known tool reads from its `args` dict. -/
def argKey (name : String) : String :=
  if name == "search_docs" then "query" else "service"

/-- The backend operation each known tool name is mapped to. -/
def backendOf (svc : Services) (name : String) : PyVal → Except PyErr PyVal :=
  if name == "search_docs" then svc.search
  else if name == "find_owner" then svc.find_owner
  else svc.check_status

/-- The trace marker for an invocation of the backend behind `name`. -/
def backendEvent (name : String) (v : PyVal) : BackendCall :=
  if name == "search_docs" then BackendCall.search v
  else if name == "find_owner" then BackendCall.find_owner v
  else BackendCall.check_status v

/-- The backend invocation `_execute_tool svc nm args` performs, if any:
`none` for an unknown tool name or when argument extraction already raised,
otherwise the dispatched call together with its outcome. -/
def dispatchOutcome (svc : Services) (nm args : PyVal) : Option (Except PyErr PyVal) :=
  if isPyStr nm "search_docs" then
    match args.get "query" (PyVal.str "") with
    | .ok q => some (svc.search q)
    | .error _ => none
  else if isPyStr nm "find_owner" then
    match args.get "service" (PyVal.str "") with
    | .ok s => some (svc.find_owner s)
    | .error _ => none
  else if isPyStr nm "check_status" then
    match args.get "service" (PyVal.str "") with
    | .ok s => some (svc.check_status s)
    | .error _ => none
  else none

/-- Tool name a call contributes in the execution loop (its
`get(\x22tool\x22, \x22\x22)` value; only total on dicts). -/
def callName (c : PyVal) : PyVal :=
  match c with
  | .dict kvs => (kvs.lookup "tool").getD (PyVal.str "")
  | _ => PyVal.str ""

/-- Arguments a call contributes in the execution loop (its
`get(\x22args\x22, \x7b\x7d)` value; only total on dicts). -/
def callArgs (c : PyVal) : PyVal :=
  match c with
  | .dict kvs => (kvs.lookup "args").getD (PyVal.dict [])
  | _ => PyVal.dict []

/-!
VectorDB (`services/vector_db.py`). The ChromaDB collection is external:
its query result (lists-of-lists keyed per input query, as the chroma
client returns them) is supplied by the oracle.
-/

/-- Result shape of `self._collection.query` (one inner list per query
text; empty outer list models a falsy field). -/
structure ChromaResult where
  documents : List (List String)
  metadatas : List (List PyVal)
  distances : List (List ℚ)

/-- Random draws and external dependencies consumed by one
`VectorDB.search` call: the three `random.random()` draws in source order,
the `random.randint` normal-latency sample, and the chroma query engine. -/
structure VOracle where
  uFail : ℚ
  uSlow : ℚ
  uLow : ℚ
  normalLatency : Nat
  chroma : String → Nat → ChromaResult

/-- The `Config` values `VectorDB.search` reads. -/
structure VConfig where
  FAILURE_RATE : ℚ
  SLOW_QUERY_RATE : ℚ
  LOW_SIMILARITY_RATE : ℚ
  SLOW_QUERY_LATENCY : Nat

/-- Observable effect of a `VectorDB.search` call: a `time.sleep` (ms) or
an invocation of the external similarity ranking. -/
inductive VEvent where
  | sleep (ms : Nat)
  | rank (query : String) (top_k : Nat)

/-- The dict returned by `VectorDB.search`. -/
structure SearchOut where
  documents : List String
  metadatas : List PyVal
  distances : List ℚ
  latency_ms : Nat

/-- The `VConfig` with the default `Config` rates of `config.py`. -/
def Config.vectorConfig : VConfig :=
  { FAILURE_RATE := Config.VECTOR_DB_FAILURE_RATE
  , SLOW_QUERY_RATE := Config.VECTOR_DB_SLOW_QUERY_RATE
  , LOW_SIMILARITY_RATE := Config.VECTOR_DB_LOW_SIMILARITY_RATE
  , SLOW_QUERY_LATENCY := Config.VECTOR_DB_SLOW_QUERY_LATENCY }

/-- `VectorDB.search`: fault draw order and arithmetic exactly as in the
source — connection failure first (raises immediately, nothing slept, no
ranking), then slow-vs-normal latency sleep, then the real chroma query,
then the low-similarity draw which adds `0.5` to every returned distance.
Returns the event trace next to the outcome; `latency_ms` is the wall time,
i.e. the slept milliseconds. -/
def VectorDB.search (cfg : VConfig) (o : VOracle) (query : String)
    (top_k : Nat := 3) : List VEvent × Except PyErr SearchOut :=
  if o.uFail < cfg.FAILURE_RATE then
    ([], .error (.connectionError "VectorDB connection failed: ECONNREFUSED"))
  else
    let sleepMs := if o.uSlow < cfg.SLOW_QUERY_RATE then cfg.SLOW_QUERY_LATENCY
                   else o.normalLatency
    let results := o.chroma query top_k
    let base := match results.distances with
                | [] => []
                | d :: _ => d
    let distances := if o.uLow < cfg.LOW_SIMILARITY_RATE
                     then base.map (fun d => d + 5/10)
                     else base
    ([VEvent.sleep sleepMs, VEvent.rank query top_k],
     .ok { documents := match results.documents with
                        | [] => []
                        | d :: _ => d
         , metadatas := match results.metadatas with
                        | [] => []
                        | m :: _ => m
         , distances := distances
         , latency_ms := sleepMs })

/-!
TeamDB (`services/team_db.py`). The in-memory SQLite database holds the
rows loaded from the fixture; `find_owner` is one SQL query
(`WHERE LOWER(o.services) LIKE pattern ORDER BY o.is_active DESC,
o.name ASC LIMIT 1` over the owners-join-teams rows) followed by the
stale-data flip on the outgoing copy.
-/

/-- One row of the `owners` table (`services` is stored as the
`json.dumps` text of the service-name list; kept structured here, with
`ownerServicesText` producing the stored text). -/
structure OwnerRow where
  id : String
  name : String
  email : String
  slack_handle : String
  team_id : String
  services : List String
  is_active : Bool

/-- One row of the `teams` table. -/
structure TeamRow where
  id : String
  name : String
  description : String
  slack_channel : String

/-- The loaded database state. -/
structure TeamStore where
  owners : List OwnerRow
  teams : List TeamRow

/-- JSON string literal as `json.dumps` writes it. -/
def jsonQuote (s : String) : String :=
  "\x22" ++ String.join (s.toList.map fun c =>
    if c = '\x22' then "\x5c\x22"
    else if c = '\x5c' then "\x5c\x5c"
    else if c = '\n' then "\x5cn"
    else if c = '\t' then "\x5ct"
    else if c = '\r' then "\x5cr"
    else String.singleton c) ++ "\x22"

/-- `json.dumps` of a list of strings — the text stored in the
`owners.services` column by `_load_data`. -/
def ownerServicesText (services : List String) : String :=
  "[" ++ String.intercalate ", " (services.map jsonQuote) ++ "]"

/-- The `LIKE` test of the `find_owner` SQL query:
`LOWER(o.services) LIKE f\x22%\x7btopic.lower()\x7d%\x22`. -/
def rowMatches (topic : String) (o : OwnerRow) : Bool :=
  likeMatch ('%' :: (lowerStr topic).toList ++ ['%'])
    (lowerStr (ownerServicesText o.services)).toList

/-- Sort key of `ORDER BY o.is_active DESC, o.name ASC` (active rows first,
then byte-wise ascending name). -/
def ownerKey (o : OwnerRow) : Lex (Nat × List Char) :=
  toLex ((if o.is_active then 0 else 1), o.name.toList)

/-- The `JOIN teams t ON o.team_id = t.id` row set, in owner order. -/
def joinedRows (db : TeamStore) : List (OwnerRow × TeamRow) :=
  db.owners.filterMap fun o =>
    (db.teams.find? fun t => t.id == o.team_id).map fun t => (o, t)

/-- The single row the `find_owner` query returns: the first row minimal
for `ownerKey` among the joined rows passing the `LIKE` filter
(`ORDER BY ... LIMIT 1`). -/
def selectRow (db : TeamStore) (topic : String) : Option (OwnerRow × TeamRow) :=
  ((joinedRows db).filter fun p => rowMatches topic p.1).argmin fun p => ownerKey p.1

/-- Random draws consumed by one `find_owner` call. -/
structure TOracle where
  uStale : ℚ
  normalLatency : Nat

/-- The `Config` values `find_owner` reads. -/
structure TConfig where
  STALE_DATA_RATE : ℚ

/-- The owner dict built from the selected row (after
`json.loads(row[\x22services\x22])` and `bool(row[\x22is_active\x22])`). -/
structure OwnerOut where
  id : String
  name : String
  email : String
  slack_handle : String
  services : List String
  is_active : Bool

/-- The team dict built from the selected row. -/
structure TeamOut where
  id : String
  name : String
  slack_channel : String

/-- The dict returned by `TeamDB.find_owner`. -/
structure FindOut where
  found : Bool
  owner : Option OwnerOut
  team : Option TeamOut
  latency_ms : Nat

/-- `TeamDB.find_owner`: normal-latency sleep, the SQL selection, then —
only when a row was found — the stale-data draw flips `is_active` on the
outgoing owner dict. State passing makes the frame condition explicit: the
store is returned unchanged (the source never writes to the database). -/
def TeamDB.find_owner (cfg : TConfig) (o : TOracle) (db : TeamStore)
    (topic : String) : TeamStore × (List Nat × FindOut) :=
  let trace := [o.normalLatency]
  match selectRow db topic with
  | none =>
    (db, (trace, { found := false, owner := none, team := none
                 , latency_ms := o.normalLatency }))
  | some (ow, tm) =>
    let owner : OwnerOut :=
      { id := ow.id, name := ow.name, email := ow.email
      , slack_handle := ow.slack_handle, services := ow.services
      , is_active := ow.is_active }
    let owner := if o.uStale < cfg.STALE_DATA_RATE
                 then { owner with is_active := !owner.is_active }
                 else owner
    (db, (trace, { found := true, owner := some owner
                 , team := some { id := ow.team_id, name := tm.name
                                , slack_channel := tm.slack_channel }
                 , latency_ms := o.normalLatency }))

/-- Spec-worded matcher for comparison with the implementation: the claim
reads `find_owner` as a case-insensitive substring search of the topic
against each of the owner\x27s service names. -/
def specServiceMatch (topic : String) (o : OwnerRow) : Bool :=
  o.services.any fun s => strContains (lowerStr s) (lowerStr topic)

/-!
StatusAPI (`services/status_api.py`).
-/

/-- One service entry of the status fixture (the three fields read with
`[...]` are required, the two read with `.get` optional). -/
structure ServiceRec where
  name : String
  status : String
  uptime_percent : ℚ
  last_incident : Option String
  incident_description : Option String

/-- Python dict assignment `m[k] = v`: replace in place if the key exists,
else append (insertion order preserved, as in CPython). -/
def dictInsert (m : List (String × ServiceRec)) (k : String) (v : ServiceRec) :
    List (String × ServiceRec) :=
  if m.any fun p => p.1 == k then
    m.map fun p => if p.1 == k then (k, v) else p
  else m ++ [(k, v)]

/-- `StatusAPI._load_status`: index the fixture services by lower-cased
name. -/
def indexServices (fixture : List ServiceRec) : List (String × ServiceRec) :=
  fixture.foldl (fun m s => dictInsert m (lowerStr s.name) s) []

/-- The service dict built by `check_status` on a hit. -/
structure ServiceOut where
  name : String
  status : String
  uptime_percent : ℚ
  last_incident : Option String
  incident_description : Option String

/-- The dict returned by `StatusAPI.check_status`. -/
structure StatusOut where
  found : Bool
  service : Option ServiceOut
  latency_ms : Nat

/-- Random draws consumed by one `check_status` call. -/
structure SOracle where
  uTimeout : ℚ
  normalLatency : Nat

/-- The `Config` values `check_status` reads. -/
structure SConfig where
  TIMEOUT_RATE : ℚ
  TIMEOUT_LATENCY : Nat

/-- The `SConfig` with the default `Config` values of `config.py`. -/
def Config.statusConfig : SConfig :=
  { TIMEOUT_RATE := Config.STATUS_API_TIMEOUT_RATE
  , TIMEOUT_LATENCY := Config.STATUS_API_TIMEOUT_LATENCY }

/-- The exact/partial lookup of `check_status`: exact lower-cased key
match first, else the first indexed entry whose key contains the query key
or is contained in it. -/
def lookupService (services : List (String × ServiceRec)) (key : String) :
    Option ServiceRec :=
  match services.lookup key with
  | some s => some s
  | none =>
    (services.find? fun p => strContains p.1 key || strContains key p.1).map
      fun p => p.2

/-- `StatusAPI.check_status`: the single fault axis is the timeout draw —
when it fires the call sleeps the fixed `STATUS_API_TIMEOUT_LATENCY` and
then raises `TimeoutError`; otherwise it sleeps a normal-range latency and
performs the lookup. The slept milliseconds are returned as the trace. -/
def StatusAPI.check_status (cfg : SConfig) (o : SOracle)
    (services : List (String × ServiceRec)) (service_name : String) :
    List Nat × Except PyErr StatusOut :=
  if o.uTimeout < cfg.TIMEOUT_RATE then
    ([cfg.TIMEOUT_LATENCY],
     .error (.timeoutError ("StatusAPI timeout: " ++ service_name ++ " check exceeded 5s")))
  else
    let key := lowerStr service_name
    match lookupService services key with
    | none =>
      ([o.normalLatency],
       .ok { found := false, service := none, latency_ms := o.normalLatency })
    | some s =>
      ([o.normalLatency],
       .ok { found := true
           , service := some { name := s.name, status := s.status
                             , uptime_percent := s.uptime_percent
                             , last_incident := s.last_incident
                             , incident_description := s.incident_description }
           , latency_ms := o.normalLatency })

/-- Total slept wall time of a trace, in milliseconds. -/
def elapsedMs (trace : List Nat) : Nat := trace.sum

/-!
Concrete fixtures used to witness the theorems below on explicit inputs.
-/

/-- Services whose three backends all succeed with `None` payloads. -/
def svcAllOk : Services :=
  { search := fun _ => .ok PyVal.null
  , find_owner := fun _ => .ok PyVal.null
  , check_status := fun _ => .ok PyVal.null }

/-- Services whose vector store raises `ConnectionError` and whose status
backend raises `TimeoutError`. -/
def svcFailing : Services :=
  { search := fun _ => .error (.connectionError "boom")
  , find_owner := fun _ => .ok PyVal.null
  , check_status := fun _ => .error (.timeoutError "late") }

/-- A `json.loads` behaviour that fails on every text. -/
def loadsNone : String → Option PyVal := fun _ => none

/-- `json.loads` on the planner text `[null, null, null, null]`. -/
def loadsFour : String → Option PyVal := fun s =>
  if s == "[null, null, null, null]"
  then some (PyVal.list [PyVal.null, PyVal.null, PyVal.null, PyVal.null])
  else none

/-- `json.loads` on the planner text `[\x22x\x22]` (a JSON list whose
element is a bare string, not an object). -/
def loadsStrElem : String → Option PyVal := fun s =>
  if s == "[\x22x\x22]" then some (PyVal.list [PyVal.str "x"]) else none

/-- A constant synthesis completion. -/
def synthConst : String → List ToolResult → String := fun _ _ => "ok"

/-- Two planned calls: a well-formed `search_docs` call and a call with an
unknown tool name. -/
def callsTwo : List PyVal :=
  [ PyVal.dict [("tool", PyVal.str "search_docs"), ("args", PyVal.dict [])]
  , PyVal.dict [("tool", PyVal.str "nope")] ]

/-- Fixture team. -/
def teamPayments : TeamRow :=
  { id := "t1", name := "Payments", description := "payments team"
  , slack_channel := "#payments-help" }

/-- Fixture owner whose services include `billing` and who is stored
active. -/
def ownerSarah : OwnerRow :=
  { id := "o1", name := "Sarah Chen", email := "sarah@example.com"
  , slack_handle := "@sarah", team_id := "t1", services := ["billing"]
  , is_active := true }

/-- Fixture store holding the one owner and team. -/
def dbBilling : TeamStore := { owners := [ownerSarah], teams := [teamPayments] }

/-- Status fixture: a degraded staging service. -/
def stagingRec : ServiceRec :=
  { name := "staging", status := "degraded", uptime_percent := 97
  , last_incident := some "2025-01-01"
  , incident_description := some "database failover" }

/-- A chroma engine returning one hit at distance `0` (an exact-match
document) for every query. -/
def chromaExact : String → Nat → ChromaResult := fun _ _ =>
  { documents := [["doc-a"]], metadatas := [[PyVal.null]], distances := [[0]] }

/-- A vector-store configuration with quality degradation forced on and
the other two faults off. -/
def vcfgDegraded : VConfig :=
  { FAILURE_RATE := 0, SLOW_QUERY_RATE := 0, LOW_SIMILARITY_RATE := 1
  , SLOW_QUERY_LATENCY := 3000 }

/-- A vector-store oracle with all uniform draws at `0` over the
`chromaExact` engine. -/
def voracleZero : VOracle :=
  { uFail := 0, uSlow := 0, uLow := 0, normalLatency := 70, chroma := chromaExact }

/-- Whether a Python value is a `list` (`isinstance(tools, list)`). -/
def PyVal.isList : PyVal → Bool
  | .list _ => true
  | _ => false

/-- Tool name a call contributes to `tools_called` (its
`get(\x22tool\x22)` value with Python default `None`; only total on
dicts). -/
def callNameNull (c : PyVal) : PyVal :=
  match c with
  | .dict kvs => (kvs.lookup "tool").getD PyVal.null
  | _ => PyVal.null

/-- First character of each `errMsg` class. -/
def errHeadChar : PyErr → Char
  | .connectionError _ => 'C'
  | .timeoutError _ => 'T'
  | .otherError _ _ => 'E'

/-- A vector-store configuration with the connection fault forced on. -/
def vcfgUnavailable : VConfig :=
  { FAILURE_RATE := 1, SLOW_QUERY_RATE := 0, LOW_SIMILARITY_RATE := 0
  , SLOW_QUERY_LATENCY := 3000 }

/-- A directory configuration with stale data forced on. -/
def tcfgStale : TConfig := { STALE_DATA_RATE := 1 }

/-- A directory configuration with stale data off. -/
def tcfgFresh : TConfig := { STALE_DATA_RATE := 0 }

/-- A directory oracle with the stale draw at `0`. -/
def toracleZero : TOracle := { uStale := 0, normalLatency := 25 }

/-- A status configuration with the timeout fault forced on. -/
def scfgTimeout : SConfig := { TIMEOUT_RATE := 1, TIMEOUT_LATENCY := 5000 }

/-- A status oracle with the timeout draw at `0`. -/
def soracleZero : SOracle := { uTimeout := 0, normalLatency := 40 }

/-!
Shared lemmas about the embedding.
-/

/-- On a dict, the three `.get` extractions of the execution loop succeed
and return the projections used below. -/
theorem get_of_isDict (c : PyVal) (h : c.isDict = true) :
    c.get "tool" (PyVal.str "") = .ok (callName c) ∧
    c.get "args" (PyVal.dict []) = .ok (callArgs c) ∧
    c.get "tool" PyVal.null = .ok (callNameNull c) := by
  cases c <;> simp_all [PyVal.isDict, PyVal.get, callName, callArgs, callNameNull]

/-- `d.get` can only raise `AttributeError`. -/
theorem get_error_attr (c : PyVal) (k : String) (d : PyVal) (e : PyErr)
    (h : c.get k d = .error e) : ∃ m, e = PyErr.otherError "AttributeError" m := by
  cases c <;> simp [PyVal.get] at h <;> exact ⟨_, h.symm⟩

/-- On dict-shaped calls the execution loop returns one result per call,
in order, each computed independently from its own call. -/
theorem runCalls_eq_map (svc : Services) (calls : List PyVal)
    (h : ∀ c ∈ calls, c.isDict = true) :
    runCalls svc calls = .ok
      (calls.map fun c => (_execute_tool svc (callName c) (callArgs c)).1,
       (calls.map fun c => (_execute_tool svc (callName c) (callArgs c)).2).flatten) := by
  induction calls with
  | nil => rfl
  | cons c rest ih =>
    have hc := get_of_isDict c (h c (List.mem_cons_self _ _))
    have hr := ih fun x hx => h x (List.mem_cons_of_mem _ hx)
    simp [runCalls, hc.1, hc.2.1, hr]

/-- On dict-shaped calls the `tools_called` comprehension succeeds. -/
theorem toolsCalled_eq_map (calls : List PyVal)
    (h : ∀ c ∈ calls, c.isDict = true) :
    toolsCalled calls = .ok (calls.map callNameNull) := by
  induction calls with
  | nil => rfl
  | cons c rest ih =>
    have hc := get_of_isDict c (h c (List.mem_cons_self _ _))
    have hr := ih fun x hx => h x (List.mem_cons_of_mem _ hx)
    simp [toolsCalled, hc.2.2, hr]

/-- Any exception escaping the execution loop is an `AttributeError` from
`tool_call.get` on a non-dict call — never a backend exception (those are
all captured inside `_execute_tool`). -/
theorem runCalls_error_attr (svc : Services) (calls : List PyVal) (e : PyErr)
    (h : runCalls svc calls = .error e) :
    ∃ m, e = PyErr.otherError "AttributeError" m := by
  induction calls with
  | nil => simp [runCalls] at h
  | cons c rest ih =>
    rw [runCalls] at h
    cases hc : c.get "tool" (PyVal.str "") with
    | error e1 =>
      rw [hc] at h
      cases h
      exact get_error_attr c _ _ _ hc
    | ok name =>
      rw [hc] at h
      cases ha : c.get "args" (PyVal.dict []) with
      | error e2 =>
        rw [ha] at h
        cases h
        exact get_error_attr c _ _ _ ha
      | ok args =>
        rw [ha] at h
        cases hrest : runCalls svc rest with
        | error e3 =>
          rw [hrest] at h
          cases h
          exact ih hrest
        | ok pr =>
          rw [hrest] at h
          cases pr
          simp at h

/-- Every branch of `_execute_tool` records the dispatched tool name in
the result. -/
theorem execTool_tool_field (svc : Services) (nm args : PyVal) :
    ((_execute_tool svc nm args).1).tool = nm := by
  unfold _execute_tool
  repeat' split
  all_goals rfl

/-- When the dispatched backend call raises, `_execute_tool` returns the
uniform failure result carrying that exception\x27s class-specific message. -/
theorem execTool_backend_error (svc : Services) (nm args : PyVal) (e : PyErr)
    (h : dispatchOutcome svc nm args = some (.error e)) :
    (_execute_tool svc nm args).1 =
      { tool := nm, success := false, data := none, error := some (errMsg e) } := by
  unfold dispatchOutcome at h
  split at h
  case isTrue hc1 =>
    cases hq : args.get "query" (PyVal.str "") with
    | error e1 => rw [hq] at h; cases h
    | ok q =>
      rw [hq] at h
      have hsvc : svc.search q = Except.error e := by simpa using h
      simp [_execute_tool, hc1, hq, hsvc, caughtResult]
  case isFalse hc1 =>
    split at h
    case isTrue hc2 =>
      cases hs : args.get "service" (PyVal.str "") with
      | error e1 => rw [hs] at h; cases h
      | ok s =>
        rw [hs] at h
        have hsvc : svc.find_owner s = Except.error e := by simpa using h
        simp [_execute_tool, hc1, hc2, hs, hsvc, caughtResult]
    case isFalse hc2 =>
      split at h
      case isTrue hc3 =>
        cases hs : args.get "service" (PyVal.str "") with
        | error e1 => rw [hs] at h; cases h
        | ok s =>
          rw [hs] at h
          have hsvc : svc.check_status s = Except.error e := by simpa using h
          simp [_execute_tool, hc1, hc2, hc3, hs, hsvc, caughtResult]
      case isFalse hc3 => cases h

/-- An unknown tool name produces the `UnknownTool` failure result and no
backend invocation. -/
theorem execTool_unknown (svc : Services) (nm args : PyVal)
    (h : ∀ s ∈ knownTools, isPyStr nm s = false) :
    _execute_tool svc nm args =
      ({ tool := nm, success := false, data := none,
         error := some ("Unknown tool: " ++ pyStr nm) }, []) := by
  have h1 := h "search_docs" (by simp [knownTools])
  have h2 := h "find_owner" (by simp [knownTools])
  have h3 := h "check_status" (by simp [knownTools])
  simp [_execute_tool, h1, h2, h3]

/-- Messages produced by `errMsg` start with the class character. -/
theorem errMsg_head (e : PyErr) : (errMsg e).data.head? = some (errHeadChar e) := by
  cases e with
  | connectionError m => cases m with | mk l => rfl
  | timeoutError m => cases m with | mk l => rfl
  | otherError c m => cases m with | mk l => rfl

/-- Exceptions captured by different `except` clauses always yield
different messages. -/
theorem errMsg_ne_of_class (e e2 : PyErr) (h : errClass e ≠ errClass e2) :
    errMsg e ≠ errMsg e2 := by
  intro heq
  have hh := congrArg (fun s => s.data.head?) heq
  simp only [errMsg_head] at hh
  cases e <;> cases e2 <;> simp_all [errClass, errHeadChar]

/-!
Claims.
-/

/-- C5: whenever the Document Search unavailability draw fires (and so
always when the unavailability probability is fixed at 1.0), `search`
raises the connectivity error immediately: its event trace is empty — no
latency sleep, no ranking invocation — and no result is returned. -/
theorem search_unavailability_immediate (cfg : VConfig) (o : VOracle)
    (q : String) (k : Nat) (hfire : o.uFail < cfg.FAILURE_RATE) :
    VectorDB.search cfg o q k =
      ([], .error (.connectionError "VectorDB connection failed: ECONNREFUSED")) ∧
    (∀ ms, VEvent.sleep ms ∉ (VectorDB.search cfg o q k).1) ∧
    (∀ q2 k2, VEvent.rank q2 k2 ∉ (VectorDB.search cfg o q k).1) ∧
    (∀ out, (VectorDB.search cfg o q k).2 ≠ .ok out) := by
  have hmain : VectorDB.search cfg o q k =
      ([], .error (.connectionError "VectorDB connection failed: ECONNREFUSED")) := by
    simp [VectorDB.search, hfire]
  refine ⟨hmain, fun ms => ?_, fun q2 k2 => ?_, fun out => ?_⟩ <;> rw [hmain] <;> simp

/-- C5 witness: with the unavailability probability set to 1.0 and a
concrete draw, the connectivity error is raised with an empty trace. -/
theorem search_unavailability_immediate_witness :
    voracleZero.uFail < vcfgUnavailable.FAILURE_RATE ∧
    (VectorDB.search vcfgUnavailable voracleZero "payments" 3 =
      ([], .error (.connectionError "VectorDB connection failed: ECONNREFUSED")) ∧
    (∀ ms, VEvent.sleep ms ∉ (VectorDB.search vcfgUnavailable voracleZero "payments" 3).1) ∧
    (∀ q2 k2, VEvent.rank q2 k2 ∉ (VectorDB.search vcfgUnavailable voracleZero "payments" 3).1) ∧
    (∀ out, (VectorDB.search vcfgUnavailable voracleZero "payments" 3).2 ≠ .ok out)) :=
  ⟨by decide, search_unavailability_immediate vcfgUnavailable voracleZero "payments" 3 (by decide)⟩

/-- C9: whenever the Health/Status timeout draw fires (and so always when
the timeout probability is fixed at 1.0), `check_status` blocks for the
fixed timeout duration and then raises the timeout error instead of
returning, so the elapsed wall time is at least the configured timeout;
moreover no other exception class can ever leave `check_status`, and the
default configured timeout (5000 ms) exceeds the normal latency maximum
(150 ms) by at least an order of magnitude. -/
theorem check_status_timeout_blocks (cfg : SConfig) (o : SOracle)
    (services : List (String × ServiceRec)) (name : String)
    (hfire : o.uTimeout < cfg.TIMEOUT_RATE) :
    StatusAPI.check_status cfg o services name =
      ([cfg.TIMEOUT_LATENCY],
       .error (.timeoutError ("StatusAPI timeout: " ++ name ++ " check exceeded 5s"))) ∧
    cfg.TIMEOUT_LATENCY ≤ elapsedMs (StatusAPI.check_status cfg o services name).1 ∧
    (∀ (cfg2 : SConfig) (o2 : SOracle) svcs2 n2 e,
       (StatusAPI.check_status cfg2 o2 svcs2 n2).2 = .error e →
       ∃ m, e = PyErr.timeoutError m) ∧
    Config.STATUS_API_LATENCY_MAX * 10 ≤ Config.STATUS_API_TIMEOUT_LATENCY := by
  have hmain : StatusAPI.check_status cfg o services name =
      ([cfg.TIMEOUT_LATENCY],
       .error (.timeoutError ("StatusAPI timeout: " ++ name ++ " check exceeded 5s"))) := by
    simp [StatusAPI.check_status, hfire]
  refine ⟨hmain, ?_, ?_, by decide⟩
  · rw [hmain]
    simp [elapsedMs]
  · intro cfg2 o2 svcs2 n2 e h
    unfold StatusAPI.check_status at h
    split at h
    · simp only at h
      cases h
      exact ⟨_, rfl⟩
    · cases hl : lookupService svcs2 (lowerStr n2) <;> simp [hl] at h

/-- C9 witness: with the timeout probability set to 1.0 and a concrete
draw against the staging fixture, the call blocks 5000 ms and raises. -/
theorem check_status_timeout_blocks_witness :
    soracleZero.uTimeout < scfgTimeout.TIMEOUT_RATE ∧
    (StatusAPI.check_status scfgTimeout soracleZero (indexServices [stagingRec]) "staging" =
      ([scfgTimeout.TIMEOUT_LATENCY],
       .error (.timeoutError ("StatusAPI timeout: " ++ "staging" ++ " check exceeded 5s"))) ∧
    scfgTimeout.TIMEOUT_LATENCY ≤
      elapsedMs (StatusAPI.check_status scfgTimeout soracleZero
        (indexServices [stagingRec]) "staging").1 ∧
    (∀ (cfg2 : SConfig) (o2 : SOracle) svcs2 n2 e,
       (StatusAPI.check_status cfg2 o2 svcs2 n2).2 = .error e →
       ∃ m, e = PyErr.timeoutError m) ∧
    Config.STATUS_API_LATENCY_MAX * 10 ≤ Config.STATUS_API_TIMEOUT_LATENCY) :=
  ⟨by decide,
   check_status_timeout_blocks scfgTimeout soracleZero (indexServices [stagingRec])
     "staging" (by decide)⟩

/-- C3 counterexample: the planner text `[null, null, null, null]` is
valid JSON, and `_plan_tools` returns all four entries — the claimed
three-item bound is not enforced by the code. -/
theorem plan_cap_counterexample :
    (_plan_tools loadsFour "[null, null, null, null]").length = 4 ∧
    ¬ (_plan_tools loadsFour "[null, null, null, null]").length ≤ 3 := by
  constructor
  · rfl
  · intro h
    rw [show (_plan_tools loadsFour "[null, null, null, null]").length = 4 from rfl] at h
    omega

/-- C3 amended: when the planner text parses to a JSON list, `_plan_tools`
returns exactly that list, unchanged and untruncated; the three-item limit
is only requested in the planning prompt, so the result has at most three
items exactly when the parsed list does. -/
theorem plan_returns_parsed_list (loads : String → Option PyVal) (raw : String)
    (xs : List PyVal) (h : loads (stripContent raw) = some (PyVal.list xs)) :
    _plan_tools loads raw = xs ∧
    ((_plan_tools loads raw).length ≤ 3 ↔ xs.length ≤ 3) := by
  simp [_plan_tools, h]

/-- C3 witness: the amended statement at the four-entry planner text. -/
theorem plan_returns_parsed_list_witness :
    _plan_tools loadsFour "[null, null, null, null]" =
      [PyVal.null, PyVal.null, PyVal.null, PyVal.null] ∧
    ((_plan_tools loadsFour "[null, null, null, null]").length ≤ 3 ↔
      ([PyVal.null, PyVal.null, PyVal.null, PyVal.null] : List PyVal).length ≤ 3) :=
  plan_returns_parsed_list loadsFour "[null, null, null, null]"
    [PyVal.null, PyVal.null, PyVal.null, PyVal.null] rfl

/-- C2 counterexample: the planner text `[\x22x\x22]` parses to a JSON
list whose element is a bare string; `_plan_tools` forwards it and the
execution loop of `query` then raises `AttributeError` on
`tool_call.get` — `query` does not complete for this parsed planner
output. -/
theorem query_nonmapping_plan_counterexample :
    _plan_tools loadsStrElem "[\x22x\x22]" = [PyVal.str "x"] ∧
    DevHubAgent.query svcAllOk loadsStrElem synthConst "q" "[\x22x\x22]" =
      Except.error (PyErr.otherError "AttributeError"
        "object has no attribute get: tool") :=
  ⟨rfl, rfl⟩

/-- C2 amended: on parse failure or a non-list parse the plan degrades to
the empty tool sequence; `query` completes and returns a well-formed
result for every planned sequence whose entries are mappings (in
particular for a non-JSON planning response, where it reports no tools);
a parsed planner list containing a non-mapping entry, however, makes the
execution loop raise (see the counterexample). -/
theorem plan_parse_failsoft (svc : Services) (loads : String → Option PyVal)
    (synth : String → List ToolResult → String) (uq raw : String) :
    (loads (stripContent raw) = none → _plan_tools loads raw = []) ∧
    (∀ v, loads (stripContent raw) = some v → v.isList = false →
      _plan_tools loads raw = []) ∧
    ((∀ c ∈ _plan_tools loads raw, c.isDict = true) →
      ∃ out, DevHubAgent.query svc loads synth uq raw = .ok out ∧
        out.tool_results.length = (_plan_tools loads raw).length ∧
        out.tools_called.length = (_plan_tools loads raw).length ∧
        out.response = synth uq out.tool_results) ∧
    (loads (stripContent raw) = none →
      ∃ out, DevHubAgent.query svc loads synth uq raw = .ok out ∧
        out.tools_called = [] ∧ out.tool_results = [] ∧
        out.response = synth uq []) := by
  refine ⟨fun h => by simp [_plan_tools, h], ?_, ?_, ?_⟩
  · intro v hv hnl
    cases v <;> simp_all [_plan_tools, PyVal.isList]
  · intro hd
    have hrun := runCalls_eq_map svc (_plan_tools loads raw) hd
    have htc := toolsCalled_eq_map (_plan_tools loads raw) hd
    refine ⟨⟨synth uq ((_plan_tools loads raw).map fun c =>
              (_execute_tool svc (callName c) (callArgs c)).1),
            (_plan_tools loads raw).map callNameNull,
            (_plan_tools loads raw).map fun c =>
              (_execute_tool svc (callName c) (callArgs c)).1⟩,
           ?_, by simp, by simp, rfl⟩
    simp [DevHubAgent.query, hrun, htc]
  · intro h0
    have hplan : _plan_tools loads raw = [] := by simp [_plan_tools, h0]
    exact ⟨⟨synth uq [], [], []⟩,
           by simp [DevHubAgent.query, hplan, runCalls, toolsCalled], rfl, rfl, rfl⟩

/-- C2 witness: a planning response that is not JSON yields the empty
plan, and `query` still completes with a well-formed no-tools result. -/
theorem plan_parse_failsoft_witness :
    _plan_tools loadsNone "hello" = [] ∧
    (∃ out, DevHubAgent.query svcAllOk loadsNone synthConst "q" "hello" = .ok out ∧
      out.tools_called = [] ∧ out.tool_results = [] ∧
      out.response = synthConst "q" []) :=
  ⟨(plan_parse_failsoft svcAllOk loadsNone synthConst "q" "hello").1 rfl,
   (plan_parse_failsoft svcAllOk loadsNone synthConst "q" "hello").2.2.2 rfl⟩

/-- C1: on mapping-shaped planned calls the execution loop returns one
result per call computed independently per call (so one backend failure
never prevents later calls or shortens the list synthesis receives); every
exception a dispatched backend raises is converted into a
`success = false` result whose non-null message is distinct per exception
class; and any exception that does escape the loop is an `AttributeError`
from `tool_call.get` on a non-mapping call, never a backend exception. -/
theorem execute_captures_backend_exceptions (svc : Services) (calls : List PyVal)
    (hdict : ∀ c ∈ calls, c.isDict = true) :
    runCalls svc calls = .ok
      (calls.map fun c => (_execute_tool svc (callName c) (callArgs c)).1,
       (calls.map fun c => (_execute_tool svc (callName c) (callArgs c)).2).flatten) ∧
    (∀ nm args e, dispatchOutcome svc nm args = some (.error e) →
      (_execute_tool svc nm args).1 =
        { tool := nm, success := false, data := none, error := some (errMsg e) }) ∧
    (∀ e e2, errClass e ≠ errClass e2 → errMsg e ≠ errMsg e2) ∧
    (∀ (cs : List PyVal) e, runCalls svc cs = .error e →
      ∃ m, e = PyErr.otherError "AttributeError" m) :=
  ⟨runCalls_eq_map svc calls hdict,
   fun nm args e h => execTool_backend_error svc nm args e h,
   fun e e2 h => errMsg_ne_of_class e e2 h,
   fun cs e h => runCalls_error_attr svc cs e h⟩

/-- C1 witness: a failing vector store plus an unknown tool, on two
concrete planned calls. -/
theorem execute_captures_backend_exceptions_witness :
    (∀ c ∈ callsTwo, c.isDict = true) ∧
    (runCalls svcFailing callsTwo = .ok
      (callsTwo.map fun c => (_execute_tool svcFailing (callName c) (callArgs c)).1,
       (callsTwo.map fun c => (_execute_tool svcFailing (callName c) (callArgs c)).2).flatten) ∧
    (∀ nm args e, dispatchOutcome svcFailing nm args = some (.error e) →
      (_execute_tool svcFailing nm args).1 =
        { tool := nm, success := false, data := none, error := some (errMsg e) }) ∧
    (∀ e e2, errClass e ≠ errClass e2 → errMsg e ≠ errMsg e2) ∧
    (∀ (cs : List PyVal) e, runCalls svcFailing cs = .error e →
      ∃ m, e = PyErr.otherError "AttributeError" m)) :=
  ⟨by decide, execute_captures_backend_exceptions svcFailing callsTwo (by decide)⟩

/-- C4: on mapping-shaped planned calls, execution returns exactly one
`ToolResult` per call in the same order; every result carries the tool
name of its own call; and a tool name outside the registry produces the
unknown-tool failure with no backend invocation. -/
theorem execute_order_and_unknown (svc : Services) (calls : List PyVal)
    (hdict : ∀ c ∈ calls, c.isDict = true) :
    runCalls svc calls = .ok
      (calls.map fun c => (_execute_tool svc (callName c) (callArgs c)).1,
       (calls.map fun c => (_execute_tool svc (callName c) (callArgs c)).2).flatten) ∧
    (∀ nm args, ((_execute_tool svc nm args).1).tool = nm) ∧
    (∀ nm args, (∀ s ∈ knownTools, isPyStr nm s = false) →
      _execute_tool svc nm args =
        ({ tool := nm, success := false, data := none,
           error := some ("Unknown tool: " ++ pyStr nm) }, [])) :=
  ⟨runCalls_eq_map svc calls hdict,
   fun nm args => execTool_tool_field svc nm args,
   fun nm args h => execTool_unknown svc nm args h⟩

/-- C4 witness: the two concrete planned calls, one of which names an
unknown tool. -/
theorem execute_order_and_unknown_witness :
    (∀ c ∈ callsTwo, c.isDict = true) ∧
    (runCalls svcAllOk callsTwo = .ok
      (callsTwo.map fun c => (_execute_tool svcAllOk (callName c) (callArgs c)).1,
       (callsTwo.map fun c => (_execute_tool svcAllOk (callName c) (callArgs c)).2).flatten) ∧
    (∀ nm args, ((_execute_tool svcAllOk nm args).1).tool = nm) ∧
    (∀ nm args, (∀ s ∈ knownTools, isPyStr nm s = false) →
      _execute_tool svcAllOk nm args =
        ({ tool := nm, success := false, data := none,
           error := some ("Unknown tool: " ++ pyStr nm) }, []))) :=
  ⟨by decide, execute_order_and_unknown svcAllOk callsTwo (by decide)⟩

/-- C10: for a known tool whose arguments mapping omits the expected key
(`query` for `search_docs`, `service` for the other two), `_execute_tool`
behaves exactly as if the key were present with the empty string: the
mapped backend is invoked with `\x22\x22` and its outcome is reported
(success mirrors the backend, a raised exception becomes the uniform
failure result) — no argument-error result is produced; and a planned
call with no arguments mapping at all contributes the empty dict in the
execution loop. -/
theorem missing_args_use_empty_string (svc : Services) (name : String)
    (hname : name ∈ knownTools) :
    (∀ kvs, kvs.lookup (argKey name) = none →
       _execute_tool svc (PyVal.str name) (PyVal.dict kvs)
         = _execute_tool svc (PyVal.str name) (PyVal.dict [(argKey name, PyVal.str "")])) ∧
    ((_execute_tool svc (PyVal.str name) (PyVal.dict [])).2
       = [backendEvent name (PyVal.str "")]) ∧
    (∀ d, backendOf svc name (PyVal.str "") = .ok d →
       ((_execute_tool svc (PyVal.str name) (PyVal.dict [])).1).success = true) ∧
    (∀ e, backendOf svc name (PyVal.str "") = .error e →
       (_execute_tool svc (PyVal.str name) (PyVal.dict [])).1
         = { tool := PyVal.str name, success := false, data := none
           , error := some (errMsg e) }) ∧
    (∀ kvs, kvs.lookup "args" = none → callArgs (PyVal.dict kvs) = PyVal.dict []) := by
  have hcall : ∀ kvs : List (String × PyVal), kvs.lookup "args" = none →
      callArgs (PyVal.dict kvs) = PyVal.dict [] := by
    intro kvs h
    simp [callArgs, h]
  have hname3 : name = "search_docs" ∨ name = "find_owner" ∨ name = "check_status" := by
    simpa [knownTools] using hname
  rcases hname3 with rfl | rfl | rfl
  · refine ⟨fun kvs h => ?_, ?_, fun d hd => ?_, fun e he => ?_, hcall⟩
    · rw [show argKey "search_docs" = "query" from rfl] at h
      simp [_execute_tool, isPyStr, PyVal.get, argKey, h]
    · cases hs : svc.search (PyVal.str "") with
      | error e => simp [_execute_tool, isPyStr, PyVal.get, hs, backendEvent]
      | ok d =>
        cases hb : buildSearchPayload d <;>
          simp [_execute_tool, isPyStr, PyVal.get, hs, hb, backendEvent]
    · have hs : svc.search (PyVal.str "") = .ok d := by simpa [backendOf] using hd
      cases hb : buildSearchPayload d <;>
        simp [_execute_tool, isPyStr, PyVal.get, hs, hb, caughtResult]
    · have hs : svc.search (PyVal.str "") = .error e := by simpa [backendOf] using he
      simp [_execute_tool, isPyStr, PyVal.get, hs, caughtResult]
  · refine ⟨fun kvs h => ?_, ?_, fun d hd => ?_, fun e he => ?_, hcall⟩
    · rw [show argKey "find_owner" = "service" from rfl] at h
      simp [_execute_tool, isPyStr, PyVal.get, argKey, h]
    · cases hs : svc.find_owner (PyVal.str "") <;>
        simp [_execute_tool, isPyStr, PyVal.get, hs, backendEvent]
    · have hs : svc.find_owner (PyVal.str "") = .ok d := by simpa [backendOf] using hd
      simp [_execute_tool, isPyStr, PyVal.get, hs]
    · have hs : svc.find_owner (PyVal.str "") = .error e := by simpa [backendOf] using he
      simp [_execute_tool, isPyStr, PyVal.get, hs, caughtResult]
  · refine ⟨fun kvs h => ?_, ?_, fun d hd => ?_, fun e he => ?_, hcall⟩
    · rw [show argKey "check_status" = "service" from rfl] at h
      simp [_execute_tool, isPyStr, PyVal.get, argKey, h]
    · cases hs : svc.check_status (PyVal.str "") <;>
        simp [_execute_tool, isPyStr, PyVal.get, hs, backendEvent]
    · have hs : svc.check_status (PyVal.str "") = .ok d := by simpa [backendOf] using hd
      simp [_execute_tool, isPyStr, PyVal.get, hs]
    · have hs : svc.check_status (PyVal.str "") = .error e := by simpa [backendOf] using he
      simp [_execute_tool, isPyStr, PyVal.get, hs, caughtResult]

/-- C10 witness: `find_owner` with an empty arguments dict against
concrete services. -/
theorem missing_args_use_empty_string_witness :
    "find_owner" ∈ knownTools ∧
    ((∀ kvs, kvs.lookup (argKey "find_owner") = none →
       _execute_tool svcAllOk (PyVal.str "find_owner") (PyVal.dict kvs)
         = _execute_tool svcAllOk (PyVal.str "find_owner")
             (PyVal.dict [(argKey "find_owner", PyVal.str "")])) ∧
    ((_execute_tool svcAllOk (PyVal.str "find_owner") (PyVal.dict [])).2
       = [backendEvent "find_owner" (PyVal.str "")]) ∧
    (∀ d, backendOf svcAllOk "find_owner" (PyVal.str "") = .ok d →
       ((_execute_tool svcAllOk (PyVal.str "find_owner") (PyVal.dict [])).1).success = true) ∧
    (∀ e, backendOf svcAllOk "find_owner" (PyVal.str "") = .error e →
       (_execute_tool svcAllOk (PyVal.str "find_owner") (PyVal.dict [])).1
         = { tool := PyVal.str "find_owner", success := false, data := none
           , error := some (errMsg e) }) ∧
    (∀ kvs, kvs.lookup "args" = none → callArgs (PyVal.dict kvs) = PyVal.dict [])) :=
  ⟨by decide, missing_args_use_empty_string svcAllOk "find_owner" (by decide)⟩

/-- C7: when the staleness draw fires on a matching `find_owner` call
(always so with the staleness probability at 1.0), the returned owner
carries the negation of the stored `is_active`, the stored database is
returned unchanged, and a subsequent call on that store with the
staleness probability at 0.0 returns the original stored value. -/
theorem find_owner_stale_flip_outgoing_only (cfg cfg2 : TConfig) (o o2 : TOracle)
    (db : TeamStore) (topic : String) (ow : OwnerRow) (tm : TeamRow)
    (hsel : selectRow db topic = some (ow, tm))
    (hfire : o.uStale < cfg.STALE_DATA_RATE)
    (hrate2 : cfg2.STALE_DATA_RATE = 0) (hu2 : 0 ≤ o2.uStale) :
    (TeamDB.find_owner cfg o db topic).1 = db ∧
    ((TeamDB.find_owner cfg o db topic).2.2.owner.map OwnerOut.is_active
       = some (!ow.is_active)) ∧
    ((TeamDB.find_owner cfg2 o2 (TeamDB.find_owner cfg o db topic).1 topic).2.2.owner.map
       OwnerOut.is_active = some ow.is_active) := by
  have hnofire2 : ¬ o2.uStale < cfg2.STALE_DATA_RATE := by
    rw [hrate2]
    exact not_lt.mpr hu2
  refine ⟨?_, ?_, ?_⟩
  · simp [TeamDB.find_owner, hsel]
  · simp [TeamDB.find_owner, hsel, hfire]
  · have hdb : (TeamDB.find_owner cfg o db topic).1 = db := by
      simp [TeamDB.find_owner, hsel]
    rw [hdb]
    simp [TeamDB.find_owner, hsel, hnofire2]

/-- C7 witness: against the billing fixture, with the staleness
probability at 1.0 the returned flag is the negation of the stored one,
and at 0.0 the stored value reappears. -/
theorem find_owner_stale_flip_outgoing_only_witness :
    selectRow dbBilling "billing" = some (ownerSarah, teamPayments) ∧
    toracleZero.uStale < tcfgStale.STALE_DATA_RATE ∧
    tcfgFresh.STALE_DATA_RATE = 0 ∧ (0 : ℚ) ≤ toracleZero.uStale ∧
    ((TeamDB.find_owner tcfgStale toracleZero dbBilling "billing").1 = dbBilling ∧
    ((TeamDB.find_owner tcfgStale toracleZero dbBilling "billing").2.2.owner.map
       OwnerOut.is_active = some (!ownerSarah.is_active)) ∧
    ((TeamDB.find_owner tcfgFresh toracleZero
        (TeamDB.find_owner tcfgStale toracleZero dbBilling "billing").1 "billing").2.2.owner.map
       OwnerOut.is_active = some ownerSarah.is_active)) :=
  ⟨rfl, by decide, rfl, by decide,
   find_owner_stale_flip_outgoing_only tcfgStale tcfgFresh toracleZero toracleZero
     dbBilling "billing" ownerSarah teamPayments rfl (by decide) rfl (by decide)⟩

/-- C8 counterexample: for the topic `[` the SQL `LIKE` filter matches the
stored owner — the pattern is tested against the JSON-serialized service
list, whose brackets match — although no service name of any stored owner
contains the topic as a substring, so matching is not a substring search
against the owner\x27s service-name set. -/
theorem find_owner_matching_counterexample :
    (TeamDB.find_owner tcfgFresh toracleZero dbBilling "[").2.2.found = true ∧
    (∀ ow ∈ dbBilling.owners, specServiceMatch "[" ow = false) :=
  ⟨rfl, by decide⟩

/-- C8 amended: `find_owner` matches owners by testing the SQL `LIKE`
pattern built from the lower-cased topic against the lower-cased
JSON-serialized service list (which coincides with a case-insensitive
per-service-name substring search only for topics free of JSON/LIKE
metacharacters that lie within a single name); among matching joined rows
it selects the first row minimal for active-first-then-name order, and
the selected owner is a deterministic function of the topic and stored
state — independent of the staleness draw and latency oracle. -/
theorem find_owner_selection_rule (cfg cfg2 : TConfig) (o o2 : TOracle)
    (db : TeamStore) (topic : String) :
    ((TeamDB.find_owner cfg o db topic).2.2.found
       = (TeamDB.find_owner cfg2 o2 db topic).2.2.found) ∧
    ((TeamDB.find_owner cfg o db topic).2.2.owner.map OwnerOut.id
       = (TeamDB.find_owner cfg2 o2 db topic).2.2.owner.map OwnerOut.id) ∧
    ((TeamDB.find_owner cfg o db topic).2.2.owner.map OwnerOut.name
       = (TeamDB.find_owner cfg2 o2 db topic).2.2.owner.map OwnerOut.name) ∧
    ((TeamDB.find_owner cfg o db topic).2.2.found = true ↔
       ∃ p ∈ joinedRows db, rowMatches topic p.1 = true) ∧
    (∀ ow tm, selectRow db topic = some (ow, tm) →
       (ow, tm) ∈ joinedRows db ∧ rowMatches topic ow = true ∧
       (∀ p ∈ joinedRows db, rowMatches topic p.1 = true →
          ¬ ownerKey p.1 < ownerKey ow) ∧
       (TeamDB.find_owner cfg o db topic).2.2.owner.map OwnerOut.id = some ow.id) := by
  refine ⟨?_, ?_, ?_, ?_, ?_⟩
  · cases hsel : selectRow db topic with
    | none => simp [TeamDB.find_owner, hsel]
    | some p =>
      cases p with
      | mk ow tm => simp [TeamDB.find_owner, hsel]
  · cases hsel : selectRow db topic with
    | none => simp [TeamDB.find_owner, hsel]
    | some p =>
      cases p with
      | mk ow tm =>
        simp only [TeamDB.find_owner, hsel]
        split <;> split <;> rfl
  · cases hsel : selectRow db topic with
    | none => simp [TeamDB.find_owner, hsel]
    | some p =>
      cases p with
      | mk ow tm =>
        simp only [TeamDB.find_owner, hsel]
        split <;> split <;> rfl
  · cases hsel : selectRow db topic with
    | none =>
      have hnil := (List.argmin_eq_none.mp hsel)
      rw [List.filter_eq_nil_iff] at hnil
      simp only [TeamDB.find_owner, hsel]
      constructor
      · intro hfalse
        cases hfalse
      · rintro ⟨p, hp, hm⟩
        exact absurd hm (hnil p hp)
    | some p =>
      cases p with
      | mk ow tm =>
        have hmem : (ow, tm) ∈ (joinedRows db).filter fun p => rowMatches topic p.1 :=
          List.argmin_mem (Option.mem_def.mpr hsel)
        rw [List.mem_filter] at hmem
        have hfound : (TeamDB.find_owner cfg o db topic).2.2.found = true := by
          unfold TeamDB.find_owner
          rw [hsel]
        exact ⟨fun _ => ⟨(ow, tm), hmem.1, hmem.2⟩, fun _ => hfound⟩
  · intro ow tm hsel
    have hmem : (ow, tm) ∈ (joinedRows db).filter fun p => rowMatches topic p.1 :=
      List.argmin_mem (Option.mem_def.mpr hsel)
    rw [List.mem_filter] at hmem
    refine ⟨hmem.1, hmem.2, ?_, ?_⟩
    · intro p hp hpm hlt
      have hpf : p ∈ (joinedRows db).filter fun p => rowMatches topic p.1 :=
        List.mem_filter.mpr ⟨hp, hpm⟩
      exact List.not_lt_of_mem_argmin hpf (Option.mem_def.mpr hsel) hlt
    · simp only [TeamDB.find_owner, hsel]
      split <;> rfl

/-- C8 witness: the selection rule at the billing fixture, with two
different oracle/configuration pairs. -/
theorem find_owner_selection_rule_witness :
    ((TeamDB.find_owner tcfgStale toracleZero dbBilling "billing").2.2.found
       = (TeamDB.find_owner tcfgFresh toracleZero dbBilling "billing").2.2.found) ∧
    ((TeamDB.find_owner tcfgStale toracleZero dbBilling "billing").2.2.owner.map OwnerOut.id
       = (TeamDB.find_owner tcfgFresh toracleZero dbBilling "billing").2.2.owner.map OwnerOut.id) ∧
    ((TeamDB.find_owner tcfgStale toracleZero dbBilling "billing").2.2.owner.map OwnerOut.name
       = (TeamDB.find_owner tcfgFresh toracleZero dbBilling "billing").2.2.owner.map OwnerOut.name) ∧
    ((TeamDB.find_owner tcfgStale toracleZero dbBilling "billing").2.2.found = true ↔
       ∃ p ∈ joinedRows dbBilling, rowMatches "billing" p.1 = true) ∧
    (∀ ow tm, selectRow dbBilling "billing" = some (ow, tm) →
       (ow, tm) ∈ joinedRows dbBilling ∧ rowMatches "billing" ow = true ∧
       (∀ p ∈ joinedRows dbBilling, rowMatches "billing" p.1 = true →
          ¬ ownerKey p.1 < ownerKey ow) ∧
       (TeamDB.find_owner tcfgStale toracleZero dbBilling "billing").2.2.owner.map
         OwnerOut.id = some ow.id) :=
  find_owner_selection_rule tcfgStale tcfgFresh toracleZero toracleZero dbBilling "billing"

/-- Adding a constant to every entry shifts positional `getD` reads inside
the list. -/
theorem getD_map_add (l : List ℚ) (c : ℚ) (i : Nat) (h : i < l.length) :
    (l.map fun d => d + c).getD i 0 = l.getD i 0 + c := by
  rw [List.getD_eq_getElem?_getD, List.getD_eq_getElem?_getD, List.getElem?_map,
      List.getElem?_eq_getElem h]
  simp

/-- C6 counterexample: an exact-match hit is ranked at distance `0`; with
quality degradation forced on, the returned distance is exactly `0.5`,
which does not strictly exceed the low-similarity threshold `0.5`. -/
theorem search_degradation_counterexample :
    (VectorDB.search vcfgDegraded voracleZero "payments" 3).2 =
      Except.ok { documents := ["doc-a"], metadatas := [PyVal.null]
                , distances := [(1:ℚ)/2], latency_ms := 70 } ∧
    ¬ (Config.LOW_SIMILARITY_THRESHOLD < (1:ℚ)/2) := by
  constructor
  · simp only [VectorDB.search, vcfgDegraded, voracleZero, chromaExact]
    norm_num
  · rw [Config.LOW_SIMILARITY_THRESHOLD]
    norm_num

/-- C6 amended: with quality degradation forced on (and the other two
faults off), the returned hits and their order are identical to the
un-degraded run for the same query — each distance is the un-degraded
distance plus the fixed `0.5` penalty added after ranking — so every
returned distance is at least the low-similarity threshold when the
un-degraded distances are non-negative, and strictly exceeds it exactly
when they are positive. -/
theorem search_degradation_shifts_distances (cfg : VConfig) (o : VOracle)
    (q : String) (k : Nat)
    (hf : cfg.FAILURE_RATE = 0) (hs : cfg.SLOW_QUERY_RATE = 0)
    (hl : cfg.LOW_SIMILARITY_RATE = 1)
    (h0f : 0 ≤ o.uFail) (h0s : 0 ≤ o.uSlow) (h0l : 0 ≤ o.uLow) (h1l : o.uLow < 1) :
    ∃ outD outU,
      (VectorDB.search cfg o q k).2 = .ok outD ∧
      (VectorDB.search { cfg with LOW_SIMILARITY_RATE := 0 } o q k).2 = .ok outU ∧
      outD.documents = outU.documents ∧
      outD.metadatas = outU.metadatas ∧
      outD.distances = outU.distances.map (fun d => d + 5/10) ∧
      ((∀ d ∈ outU.distances, 0 ≤ d) →
        ∀ d ∈ outD.distances, Config.LOW_SIMILARITY_THRESHOLD ≤ d) ∧
      ((∀ d ∈ outU.distances, 0 < d) →
        ∀ d ∈ outD.distances, Config.LOW_SIMILARITY_THRESHOLD < d) ∧
      (∀ i j, i < outU.distances.length → j < outU.distances.length →
        (outD.distances.getD i 0 < outD.distances.getD j 0 ↔
         outU.distances.getD i 0 < outU.distances.getD j 0)) := by
  have hnf : ¬ o.uFail < cfg.FAILURE_RATE := by
    rw [hf]; exact not_lt.mpr h0f
  have hns : ¬ o.uSlow < cfg.SLOW_QUERY_RATE := by
    rw [hs]; exact not_lt.mpr h0s
  have hyl : o.uLow < cfg.LOW_SIMILARITY_RATE := by
    rw [hl]; exact h1l
  have hnl : ¬ o.uLow < (0 : ℚ) := not_lt.mpr h0l
  have hD : (VectorDB.search cfg o q k).2 = .ok
      { documents := match (o.chroma q k).documents with
                     | [] => []
                     | d :: _ => d
      , metadatas := match (o.chroma q k).metadatas with
                     | [] => []
                     | m :: _ => m
      , distances := (match (o.chroma q k).distances with
                      | [] => []
                      | d :: _ => d).map (fun d => d + 5/10)
      , latency_ms := o.normalLatency } := by
    simp [VectorDB.search, hnf, hns, hyl]
  have hU : (VectorDB.search { cfg with LOW_SIMILARITY_RATE := 0 } o q k).2 = .ok
      { documents := match (o.chroma q k).documents with
                     | [] => []
                     | d :: _ => d
      , metadatas := match (o.chroma q k).metadatas with
                     | [] => []
                     | m :: _ => m
      , distances := match (o.chroma q k).distances with
                     | [] => []
                     | d :: _ => d
      , latency_ms := o.normalLatency } := by
    simp [VectorDB.search, hnf, hns, hnl]
  refine ⟨_, _, hD, hU, rfl, rfl, rfl, ?_, ?_, ?_⟩
  · intro hge d hd
    obtain ⟨d0, hd0, rfl⟩ := List.mem_map.mp hd
    have h0 := hge d0 hd0
    rw [Config.LOW_SIMILARITY_THRESHOLD]
    linarith
  · intro hgt d hd
    obtain ⟨d0, hd0, rfl⟩ := List.mem_map.mp hd
    have h0 := hgt d0 hd0
    rw [Config.LOW_SIMILARITY_THRESHOLD]
    linarith
  · intro i j hi hj
    rw [getD_map_add _ _ _ hi, getD_map_add _ _ _ hj]
    constructor <;> intro hlt <;> linarith

/-- C6 witness: the amended statement at the exact-match fixture with both
fault profiles concrete. -/
theorem search_degradation_shifts_distances_witness :
    vcfgDegraded.FAILURE_RATE = 0 ∧ vcfgDegraded.SLOW_QUERY_RATE = 0 ∧
    vcfgDegraded.LOW_SIMILARITY_RATE = 1 ∧
    (0 ≤ voracleZero.uFail ∧ 0 ≤ voracleZero.uSlow ∧ 0 ≤ voracleZero.uLow ∧
     voracleZero.uLow < 1) ∧
    (∃ outD outU,
      (VectorDB.search vcfgDegraded voracleZero "payments" 3).2 = .ok outD ∧
      (VectorDB.search { vcfgDegraded with LOW_SIMILARITY_RATE := 0 }
        voracleZero "payments" 3).2 = .ok outU ∧
      outD.documents = outU.documents ∧
      outD.metadatas = outU.metadatas ∧
      outD.distances = outU.distances.map (fun d => d + 5/10) ∧
      ((∀ d ∈ outU.distances, 0 ≤ d) →
        ∀ d ∈ outD.distances, Config.LOW_SIMILARITY_THRESHOLD ≤ d) ∧
      ((∀ d ∈ outU.distances, 0 < d) →
        ∀ d ∈ outD.distances, Config.LOW_SIMILARITY_THRESHOLD < d) ∧
      (∀ i j, i < outU.distances.length → j < outU.distances.length →
        (outD.distances.getD i 0 < outD.distances.getD j 0 ↔
         outU.distances.getD i 0 < outU.distances.getD j 0))) :=
  ⟨rfl, rfl, rfl, ⟨by decide, by decide, by decide, by decide⟩,
   search_degradation_shifts_distances vcfgDegraded voracleZero "payments" 3
     rfl rfl rfl (by decide) (by decide) (by decide) (by decide)⟩
